import Mathlib

/-!
Verification of the MergePDF script (src/mergeScans.py): a shallow
embedding of its merge, validation, rotation and archiving steps, with
theorems for the specified properties.
-/

namespace MergeScans

/-- A PDF page as the script observes it: an opaque content identifier
together with the rotation attribute in degrees.  Modelled from the spec:
the Page data model of the PyPDF2 dependency (an opaque unit carrying a
rotation angle in degrees, a multiple of 90, modulo 360); PyPDF2 itself is
not part of this repository. -/
structure Page where
  content : Nat
  rotation : Int
deriving DecidableEq, Repr

/-- Run a Python-style for-loop body that yields one value per iteration;
a failing step (none, an uncaught exception such as IndexError) aborts the
whole loop. -/
def mapOpt {α β : Type} (f : α → Option β) : List α → Option (List β)
  | [] => some []
  | a :: as =>
    match f a with
    | none => none
    | some b =>
      match mapOpt f as with
      | none => none
      | some bs => some (b :: bs)

/-- The list comprehension of merge_files reversing the back-side pages,
reversed_even_pages equals the list of even.pages at index i for i in
range(even_pages - 1, -1, -1); that range yields n-1, n-2, ..., 0, so its
k-th element is n-1-k.  Index accesses are modelled with Option. -/
def reversed_even_pages (even : List Page) : Option (List Page) :=
  mapOpt (fun k => even[even.length - 1 - k]?) (List.range even.length)

/-- One iteration of the merge loop of merge_files: append odd page x and
reversed even page x; an out-of-range access is none. -/
def mergeStep (odd revEven : List Page) (x : Nat) : Option (List Page) :=
  match odd[x]?, revEven[x]? with
  | some p, some q => some [p, q]
  | _, _ => none

/-- MergePDF.merge_files: build the reversed even pages, then for x in
range(odd_pages) add odd.pages at x and the reversed even page at x; the
resulting page sequence of the written output, or none for an uncaught
IndexError. -/
def merge_files (odd even : List Page) : Option (List Page) :=
  (reversed_even_pages even).bind (fun revEven =>
    (mapOpt (mergeStep odd revEven) (List.range odd.length)).map
      (fun chunks => chunks.flatten))

/-- Structural interleaving of two lists, the specification-side shape of
the merge result. -/
def interleave : List Page → List Page → List Page
  | a :: as, b :: bs => a :: b :: interleave as bs
  | _, _ => []

/-- MergePDF.check_pages: the validator compares the two page counts and
sets the proceed flag. -/
def check_pages (oddPages evenPages : Nat) : Bool :=
  oddPages == evenPages

/-- The successful effect of a PyPDF2 page rotation: the rotation attribute
advances by the angle.  Modelled from the spec: the Page data model keeps
the angle in degrees modulo 360. -/
def rotatedPage (angle : Int) (p : Page) : Page :=
  { p with rotation := (p.rotation + angle) % 360 }

/-- Modelled from the spec: PyPDF2 PageObject.rotate, which is not part of
this repository.  An angle that is not a multiple of 90 raises (none); a
valid angle updates the rotation attribute in place. -/
def page_rotate (angle : Int) (p : Page) : Option Page :=
  if angle % 90 = 0 then some (rotatedPage angle p) else none

/-- The two in-memory documents held by the script between open_files and
merge_files: the front-side (odd) and back-side (even) page sequences. -/
structure Docs where
  odd : List Page
  even : List Page
deriving DecidableEq, Repr

/-- MergePDF.rotate_pages: rotate every page of the selected reader in
place; an unknown target prints an error and changes nothing (the run
continues).  Returns the updated documents and the printed lines, or none
when PyPDF2 raises on an invalid angle. -/
def rotate_pages (target : String) (angle : Int) (d : Docs) :
    Option (Docs × List String) :=
  if target = "odd" then
    (mapOpt (page_rotate angle) d.odd).map (fun newOdd =>
      ({ d with odd := newOdd },
        ["Rotated all odd pages by " ++ toString angle ++ " degrees."]))
  else if target = "even" then
    (mapOpt (page_rotate angle) d.even).map (fun newEven =>
      ({ d with even := newEven },
        ["Rotated all even pages by " ++ toString angle ++ " degrees."]))
  else
    some (d, ["Invalid target specified. Use odd or even."])

/-- The document state reached by rotate_pages, ignoring the printed
lines. -/
def apply_rotation (target : String) (angle : Int) (d : Docs) : Option Docs :=
  (rotate_pages target angle d).map (fun r => r.1)

/-- The observable file system of one run: paths mapped to the page
sequences of the PDF files stored there. -/
abbrev FS := List (String × List Page)

/-- Look up the file stored at a path. -/
def fsRead : FS → String → Option (List Page)
  | [], _ => none
  | (q, c) :: rest, p => if q = p then some c else fsRead rest p

/-- Delete the file at a path, if any. -/
def fsRemove : FS → String → FS
  | [], _ => []
  | (q, c) :: rest, p => if q = p then fsRemove rest p else (q, c) :: fsRemove rest p

/-- Store a file at a path, replacing whatever was there. -/
def fsWrite (fs : FS) (p : String) (c : List Page) : FS :=
  (p, c) :: fsRemove fs p

/-- The filenames fixed in MergePDF.__init__ (spec: fixed, configurable
names). -/
structure Config where
  odd : String
  even : String
  archive_folder : String

/-- The defaults hardcoded in the script. -/
def defaultConfig : Config :=
  { odd := "PRT_FRONT_000975.pdf"
    even := "PRT_BACK_000995.pdf"
    archive_folder := "archive" }

/-- The ambient environment of one run: the datetime.now strings used in
generated names, and an oracle saying which paths the operating system lets
shutil.move relocate (injection point for archiving failures such as
permission errors). -/
structure Env where
  nowStamp : String
  dateStamp : String
  movable : String → Bool

/-- The generated output name merged_Y(date)m(d)_(HM).pdf from
MergePDF.__init__, with the timestamp taken from the environment. -/
def mergedName (env : Env) : String :=
  "merged_" ++ env.nowStamp ++ ".pdf"

/-- The archive destination of the front-side file: archive folder slash
date underscore original name. -/
def odd_new_name (cfg : Config) (env : Env) : String :=
  cfg.archive_folder ++ "/" ++ env.dateStamp ++ "_" ++ cfg.odd

/-- The archive destination of the back-side file. -/
def even_new_name (cfg : Config) (env : Env) : String :=
  cfg.archive_folder ++ "/" ++ env.dateStamp ++ "_" ++ cfg.even

/-- shutil.move on the observable file map.  Modelled from the spec and
the Python library documentation (shutil is not part of this repository):
a missing source or a move the environment denies raises OSError (.error);
otherwise the entry is relocated, and a file already present at the
destination is replaced the way os.rename replaces it, without any
report. -/
def shutil_move (env : Env) (fs : FS) (src dst : String) : Except String FS :=
  match fsRead fs src with
  | none => .error ("No such file or directory: " ++ src)
  | some c =>
    if env.movable src then .ok (fsWrite (fsRemove fs src) dst c)
    else .error ("Permission denied: " ++ src)

/-- The tail of MergePDF.move_files once the front-side move has succeeded:
move the back-side file, reporting an OSError with one printed line. -/
def move_files_second (cfg : Config) (env : Env) (fs1 : FS) : FS × List String :=
  match shutil_move env fs1 cfg.even (even_new_name cfg env) with
  | .error e => (fs1, ["Error while moving files: " ++ e])
  | .ok fs2 => (fs2, ["Moved input files to archive with updated names."])

/-- MergePDF.move_files: both moves run inside a single try block; the
first OSError is caught and reported with one printed line, skipping
whatever had not run yet.  Returns the file system and the printed lines.
Creation of the archive directory is not modelled, directories carry no
observable state here. -/
def move_files (cfg : Config) (env : Env) (fs : FS) : FS × List String :=
  match shutil_move env fs cfg.odd (odd_new_name cfg env) with
  | .error e => (fs, ["Error while moving files: " ++ e])
  | .ok fs1 => move_files_second cfg env fs1

/-- The MergePDF constructor pipeline: open_files, check_pages, and if the
check passes merge_files (writing the merged output) followed by
move_files.  A missing input file or an out-of-range page access is an
uncaught exception (.error); otherwise the final file system and the
printed lines are returned.  The rotation call is commented out in the
source and so does not appear here. -/
def runPipeline (cfg : Config) (env : Env) (fs : FS) :
    Except String (FS × List String) :=
  match fsRead fs cfg.odd, fsRead fs cfg.even with
  | some oddDoc, some evenDoc =>
    if check_pages oddDoc.length evenDoc.length then
      match merge_files oddDoc evenDoc with
      | some merged =>
        let fs1 := fsWrite fs (mergedName env) merged
        let res := move_files cfg env fs1
        .ok (res.1,
          ["Odd pages are equal to even pages: executing merge.",
           "Documents merged successfully into " ++ mergedName env]
          ++ res.2 ++ ["Finished successfully."])
      | none => .error "IndexError: list index out of range"
    else .ok (fs, ["Odd pages are not equal to even pages: aborting."])
  | _, _ => .error "FileNotFoundError"

theorem mapOpt_congr {α β : Type} {f g : α → Option β} :
    ∀ {l : List α}, (∀ x ∈ l, f x = g x) → mapOpt f l = mapOpt g l
  | [], _ => rfl
  | a :: as, h => by
    have h1 : f a = g a := h a (List.mem_cons_self a as)
    have h2 : mapOpt f as = mapOpt g as :=
      mapOpt_congr (fun x hx => h x (List.mem_cons_of_mem a hx))
    simp only [mapOpt, h1, h2]

theorem mapOpt_map {α β γ : Type} (f : β → Option γ) (g : α → β) :
    ∀ l : List α, mapOpt f (l.map g) = mapOpt (fun x => f (g x)) l
  | [] => rfl
  | a :: as => by
    simp only [List.map_cons, mapOpt, mapOpt_map f g as]

theorem mapOpt_range_getElem {β : Type} :
    ∀ l : List β, mapOpt (fun k => l[k]?) (List.range l.length) = some l
  | [] => rfl
  | a :: as => by
    have ih := mapOpt_range_getElem as
    have hmap : mapOpt (fun k => (a :: as)[k]?) ((List.range as.length).map (· + 1))
        = mapOpt (fun k => as[k]?) (List.range as.length) := by
      rw [mapOpt_map]
      exact mapOpt_congr (fun x _ => List.getElem?_cons_succ)
    rw [List.length_cons, List.range_succ_eq_map]
    simp only [mapOpt, List.getElem?_cons_zero, hmap, ih]

theorem reversed_even_pages_eq (even : List Page) :
    reversed_even_pages even = some even.reverse := by
  unfold reversed_even_pages
  have h1 : ∀ k ∈ List.range even.length,
      even[even.length - 1 - k]? = even.reverse[k]? := by
    intro k hk
    rw [List.mem_range] at hk
    exact (List.getElem?_reverse hk).symm
  have h2 := mapOpt_range_getElem even.reverse
  rw [List.length_reverse] at h2
  exact (mapOpt_congr h1).trans h2

theorem mergeLoop_eq : ∀ (l lr : List Page), l.length ≤ lr.length →
    mapOpt (mergeStep l lr) (List.range l.length)
      = some ((l.zip lr).map (fun pq => [pq.1, pq.2]))
  | [], _, _ => rfl
  | a :: as, [], h => by simp at h
  | a :: as, b :: bs, h => by
    have ih := mergeLoop_eq as bs (by simpa using h)
    have hmap : mapOpt (mergeStep (a :: as) (b :: bs)) ((List.range as.length).map (· + 1))
        = mapOpt (mergeStep as bs) (List.range as.length) := by
      rw [mapOpt_map]
      exact mapOpt_congr (fun x _ => by
        simp [mergeStep, List.getElem?_cons_succ])
    rw [List.length_cons, List.range_succ_eq_map]
    simp only [mapOpt, hmap, ih]
    simp [mergeStep]

theorem flatten_pairs : ∀ (l lr : List Page),
    ((l.zip lr).map (fun pq => [pq.1, pq.2])).flatten = interleave l lr
  | [], lr => by cases lr <;> rfl
  | a :: as, [] => rfl
  | a :: as, b :: bs => by
    simp only [List.zip_cons_cons, List.map_cons, List.flatten_cons, interleave,
      flatten_pairs as bs]
    rfl

theorem merge_files_eq_interleave (odd even : List Page)
    (h : odd.length ≤ even.length) :
    merge_files odd even = some (interleave odd even.reverse) := by
  have hr : odd.length ≤ even.reverse.length := by simpa using h
  simp only [merge_files, reversed_even_pages_eq, Option.some_bind,
    mergeLoop_eq odd even.reverse hr, Option.map_some', flatten_pairs]

theorem interleave_length : ∀ (l lr : List Page), l.length = lr.length →
    (interleave l lr).length = l.length + lr.length
  | [], [], _ => rfl
  | [], b :: bs, h => by simp at h
  | a :: as, [], h => by simp at h
  | a :: as, b :: bs, h => by
    have ih := interleave_length as bs (by simpa using h)
    simp only [interleave, List.length_cons, ih]
    omega

theorem interleave_getElem_even :
    ∀ (l lr : List Page) (i : Nat), l.length = lr.length → i < l.length →
      (interleave l lr)[2 * i]? = l[i]?
  | [], _, i, _, hi => by simp at hi
  | a :: as, [], _, hlen, _ => by simp at hlen
  | a :: as, b :: bs, 0, _, _ => by simp [interleave]
  | a :: as, b :: bs, i + 1, hlen, hi => by
    have ih := interleave_getElem_even as bs i (by simpa using hlen)
      (by simpa using Nat.lt_of_succ_lt_succ hi)
    have h2 : 2 * (i + 1) = 2 * i + 1 + 1 := by omega
    rw [h2]
    simp only [interleave, List.getElem?_cons_succ, ih]

theorem interleave_getElem_odd :
    ∀ (l lr : List Page) (i : Nat), l.length = lr.length → i < l.length →
      (interleave l lr)[2 * i + 1]? = lr[i]?
  | [], _, i, _, hi => by simp at hi
  | a :: as, [], _, hlen, _ => by simp at hlen
  | a :: as, b :: bs, 0, _, _ => by simp [interleave]
  | a :: as, b :: bs, i + 1, hlen, hi => by
    have ih := interleave_getElem_odd as bs i (by simpa using hlen)
      (by simpa using Nat.lt_of_succ_lt_succ hi)
    have h2 : 2 * (i + 1) + 1 = 2 * i + 1 + 1 + 1 := by omega
    rw [h2]
    simp only [interleave, List.getElem?_cons_succ, ih]

theorem mapOpt_page_rotate (angle : Int) (h : angle % 90 = 0) :
    ∀ l : List Page, mapOpt (page_rotate angle) l = some (l.map (rotatedPage angle))
  | [] => rfl
  | p :: ps => by
    simp only [mapOpt, page_rotate, if_pos h, List.map_cons,
      mapOpt_page_rotate angle h ps]

theorem rotatedPage_add (a b : Int) (p : Page) :
    rotatedPage b (rotatedPage a p) = rotatedPage ((a + b) % 360) p := by
  simp only [rotatedPage, Page.mk.injEq, true_and]
  omega

theorem rotatedPage_twice (a : Int) (p : Page) :
    rotatedPage a (rotatedPage a p) = rotatedPage (2 * a) p := by
  simp only [rotatedPage, Page.mk.injEq, true_and]
  omega

theorem apply_rotation_odd (angle : Int) (h : angle % 90 = 0) (d : Docs) :
    apply_rotation "odd" angle d
      = some { d with odd := d.odd.map (rotatedPage angle) } := by
  simp [apply_rotation, rotate_pages, mapOpt_page_rotate angle h]

theorem apply_rotation_even (angle : Int) (h : angle % 90 = 0) (d : Docs) :
    apply_rotation "even" angle d
      = some { d with even := d.even.map (rotatedPage angle) } := by
  simp [apply_rotation, rotate_pages, mapOpt_page_rotate angle h]

theorem fsRead_fsRemove_self (fs : FS) (p : String) :
    fsRead (fsRemove fs p) p = none := by
  induction fs with
  | nil => rfl
  | cons e rest ih =>
    obtain ⟨r, c⟩ := e
    by_cases h : r = p
    · simpa [fsRemove, h] using ih
    · simpa [fsRemove, fsRead, h] using ih

theorem fsRead_fsRemove_ne (fs : FS) (p q : String) (h : q ≠ p) :
    fsRead (fsRemove fs p) q = fsRead fs q := by
  induction fs with
  | nil => rfl
  | cons e rest ih =>
    obtain ⟨r, c⟩ := e
    by_cases hrp : r = p
    · have hrq : ¬ r = q := fun hx => h (hx ▸ hrp)
      simp only [fsRemove, if_pos hrp, fsRead, if_neg hrq]
      exact ih
    · simp only [fsRemove, if_neg hrp, fsRead]
      by_cases hrq : r = q
      · simp only [if_pos hrq]
      · simp only [if_neg hrq]
        exact ih

theorem fsRead_fsWrite_self (fs : FS) (p : String) (c : List Page) :
    fsRead (fsWrite fs p c) p = some c := by
  simp [fsWrite, fsRead]

theorem fsRead_fsWrite_ne (fs : FS) (p q : String) (c : List Page) (h : q ≠ p) :
    fsRead (fsWrite fs p c) q = fsRead fs q := by
  have hpq : ¬ p = q := fun hx => h hx.symm
  simp [fsWrite, fsRead, hpq, fsRead_fsRemove_ne fs p q h]

theorem shutil_move_ok_frame (env : Env) (fs fs2 : FS) (src dst p : String)
    (hp1 : p ≠ src) (hp2 : p ≠ dst)
    (h : shutil_move env fs src dst = .ok fs2) :
    fsRead fs2 p = fsRead fs p := by
  unfold shutil_move at h
  cases hr : fsRead fs src with
  | none => rw [hr] at h; exact absurd h (by simp)
  | some c =>
    rw [hr] at h
    by_cases hm : env.movable src
    · simp only [hm, if_true, Except.ok.injEq] at h
      rw [← h, fsRead_fsWrite_ne _ _ _ _ hp2, fsRead_fsRemove_ne _ _ _ hp1]
    · simp [hm] at h

theorem move_files_frame (cfg : Config) (env : Env) (fs : FS) (p : String)
    (h1 : p ≠ cfg.odd) (h2 : p ≠ cfg.even)
    (h3 : p ≠ odd_new_name cfg env) (h4 : p ≠ even_new_name cfg env) :
    fsRead (move_files cfg env fs).1 p = fsRead fs p := by
  cases hm1 : shutil_move env fs cfg.odd (odd_new_name cfg env) with
  | error e => simp [move_files, hm1]
  | ok fs1 =>
    have hfs1 : fsRead fs1 p = fsRead fs p :=
      shutil_move_ok_frame env fs fs1 cfg.odd (odd_new_name cfg env) p h1 h3 hm1
    cases hm2 : shutil_move env fs1 cfg.even (even_new_name cfg env) with
    | error e =>
      simp only [move_files, hm1, move_files_second, hm2]
      exact hfs1
    | ok fs2 =>
      have hfs2 : fsRead fs2 p = fsRead fs1 p :=
        shutil_move_ok_frame env fs1 fs2 cfg.even (even_new_name cfg env) p h2 h4 hm2
      simp only [move_files, hm1, move_files_second, hm2]
      exact hfs2.trans hfs1

theorem move_files_log_length (cfg : Config) (env : Env) (fs : FS) :
    (move_files cfg env fs).2.length = 1 := by
  cases hm1 : shutil_move env fs cfg.odd (odd_new_name cfg env) with
  | error e => simp [move_files, hm1]
  | ok fs1 =>
    cases hm2 : shutil_move env fs1 cfg.even (even_new_name cfg env) with
    | error e => simp [move_files, hm1, move_files_second, hm2]
    | ok fs2 => simp [move_files, hm1, move_files_second, hm2]

/-- Claim C1: for every pair of equal-length page sequences front and back
of length n, merge_files produces an output O with O at 2*i equal to front
at i and O at 2*i+1 equal to back at n-1-i; in particular a three-page
front F1 F2 F3 against back B1 B2 B3 merges to F1 B3 F2 B2 F3 B1. -/
theorem claim1_merge_interleave_law :
    (∀ front back : List Page, front.length = back.length →
      ∃ O, merge_files front back = some O ∧
        ∀ i < front.length,
          O[2 * i]? = front[i]? ∧
          O[2 * i + 1]? = back[back.length - 1 - i]?) ∧
    (∀ F1 F2 F3 B1 B2 B3 : Page,
      merge_files [F1, F2, F3] [B1, B2, B3]
        = some [F1, B3, F2, B2, F3, B1]) := by
  constructor
  · intro front back h
    refine ⟨interleave front back.reverse,
      merge_files_eq_interleave front back (le_of_eq h), ?_⟩
    intro i hi
    have hlen : front.length = back.reverse.length := by simpa using h
    refine ⟨interleave_getElem_even front back.reverse i hlen hi, ?_⟩
    rw [interleave_getElem_odd front back.reverse i hlen hi]
    have hib : i < back.length := h ▸ hi
    exact List.getElem?_reverse hib
  · intro F1 F2 F3 B1 B2 B3
    rw [merge_files_eq_interleave _ _ (by simp)]
    rfl

/-- Witness for Claim C1 at a concrete three-page input. -/
theorem claim1_witness :
    (∃ O, merge_files
        [Page.mk 1 0, Page.mk 2 0, Page.mk 3 0]
        [Page.mk 4 0, Page.mk 5 0, Page.mk 6 0] = some O ∧
      ∀ i < ([Page.mk 1 0, Page.mk 2 0, Page.mk 3 0] : List Page).length,
        O[2 * i]? = [Page.mk 1 0, Page.mk 2 0, Page.mk 3 0][i]? ∧
        O[2 * i + 1]?
          = [Page.mk 4 0, Page.mk 5 0, Page.mk 6 0][
              ([Page.mk 4 0, Page.mk 5 0, Page.mk 6 0] : List Page).length - 1 - i]?) ∧
    merge_files [Page.mk 1 0, Page.mk 2 0, Page.mk 3 0]
        [Page.mk 4 0, Page.mk 5 0, Page.mk 6 0]
      = some [Page.mk 1 0, Page.mk 6 0, Page.mk 2 0, Page.mk 5 0,
              Page.mk 3 0, Page.mk 4 0] :=
  ⟨claim1_merge_interleave_law.1
      [Page.mk 1 0, Page.mk 2 0, Page.mk 3 0]
      [Page.mk 4 0, Page.mk 5 0, Page.mk 6 0] rfl,
   claim1_merge_interleave_law.2 (Page.mk 1 0) (Page.mk 2 0) (Page.mk 3 0)
      (Page.mk 4 0) (Page.mk 5 0) (Page.mk 6 0)⟩

/-- Claim C2: for equal-length inputs of length n the merged output has
length exactly 2n, which is front.count plus back.count. -/
theorem claim2_merge_length (front back : List Page)
    (h : front.length = back.length) :
    ∃ O, merge_files front back = some O ∧
      O.length = front.length + back.length ∧
      O.length = 2 * front.length := by
  have hl : (interleave front back.reverse).length
      = front.length + back.length := by
    have := interleave_length front back.reverse (by simpa using h)
    simpa using this
  refine ⟨interleave front back.reverse,
    merge_files_eq_interleave front back (le_of_eq h), hl, ?_⟩
  rw [hl, h]
  omega

/-- Witness for Claim C2 at a concrete one-page input. -/
theorem claim2_witness :
    ∃ O, merge_files [Page.mk 1 0] [Page.mk 2 0] = some O ∧
      O.length = ([Page.mk 1 0] : List Page).length
        + ([Page.mk 2 0] : List Page).length ∧
      O.length = 2 * ([Page.mk 1 0] : List Page).length :=
  claim2_merge_length [Page.mk 1 0] [Page.mk 2 0] rfl

/-- Claim C9: under the validated precondition of equal counts, the
reversed back sequence is built successfully, every loop access of the
merge is in bounds, and merge_files never reaches its out-of-bounds error
branch. -/
theorem claim9_accesses_in_bounds (front back : List Page)
    (h : front.length = back.length) :
    (merge_files front back).isSome ∧
    ∃ rev, reversed_even_pages back = some rev ∧
      ∀ x < front.length, (front[x]?).isSome ∧ (rev[x]?).isSome := by
  constructor
  · rw [merge_files_eq_interleave front back (le_of_eq h)]
    rfl
  · refine ⟨back.reverse, reversed_even_pages_eq back, ?_⟩
    intro x hx
    constructor
    · rw [List.getElem?_eq_getElem hx]
      rfl
    · have hxr : x < back.reverse.length := by
        rw [List.length_reverse]
        exact h ▸ hx
      rw [List.getElem?_eq_getElem hxr]
      rfl

/-- Witness for Claim C9 at a concrete two-page input. -/
theorem claim9_witness :
    (merge_files [Page.mk 1 0, Page.mk 2 0] [Page.mk 3 0, Page.mk 4 0]).isSome ∧
    ∃ rev, reversed_even_pages [Page.mk 3 0, Page.mk 4 0] = some rev ∧
      ∀ x < ([Page.mk 1 0, Page.mk 2 0] : List Page).length,
        (([Page.mk 1 0, Page.mk 2 0] : List Page)[x]?).isSome ∧ (rev[x]?).isSome :=
  claim9_accesses_in_bounds [Page.mk 1 0, Page.mk 2 0]
    [Page.mk 3 0, Page.mk 4 0] rfl

/-- Claim C3: when the two page counts differ the validator answers false
and the run stops with the file system exactly as it was: no merged output
is written and nothing is archived. -/
theorem claim3_mismatch_aborts (cfg : Config) (env : Env) (fs : FS)
    (d1 d2 : List Page)
    (h1 : fsRead fs cfg.odd = some d1) (h2 : fsRead fs cfg.even = some d2)
    (hne : d1.length ≠ d2.length) :
    check_pages d1.length d2.length = false ∧
    runPipeline cfg env fs
      = .ok (fs, ["Odd pages are not equal to even pages: aborting."]) := by
  have hc : check_pages d1.length d2.length = false := by
    simpa [check_pages] using hne
  refine ⟨hc, ?_⟩
  simp [runPipeline, h1, h2, hc]

/-- Witness for Claim C3: a one-page front against an empty back. -/
theorem claim3_witness :
    fsRead [("PRT_FRONT_000975.pdf", [Page.mk 1 0]),
            ("PRT_BACK_000995.pdf", ([] : List Page))]
        defaultConfig.odd = some [Page.mk 1 0] ∧
    fsRead [("PRT_FRONT_000975.pdf", [Page.mk 1 0]),
            ("PRT_BACK_000995.pdf", ([] : List Page))]
        defaultConfig.even = some [] ∧
    ([Page.mk 1 0] : List Page).length ≠ ([] : List Page).length ∧
    check_pages ([Page.mk 1 0] : List Page).length ([] : List Page).length = false ∧
    runPipeline defaultConfig (Env.mk "20250103_1200" "2025-01-03" (fun _ => true))
        [("PRT_FRONT_000975.pdf", [Page.mk 1 0]),
         ("PRT_BACK_000995.pdf", ([] : List Page))]
      = .ok ([("PRT_FRONT_000975.pdf", [Page.mk 1 0]),
              ("PRT_BACK_000995.pdf", ([] : List Page))],
             ["Odd pages are not equal to even pages: aborting."]) :=
  ⟨by decide, by decide, by decide,
   claim3_mismatch_aborts defaultConfig
     (Env.mk "20250103_1200" "2025-01-03" (fun _ => true))
     [("PRT_FRONT_000975.pdf", [Page.mk 1 0]),
      ("PRT_BACK_000995.pdf", ([] : List Page))]
     [Page.mk 1 0] [] (by decide) (by decide) (by decide)⟩

/-- Claim C8: two empty inputs are not an error: the validator proceeds on
0 equal to 0 and the pipeline writes a merged output holding zero pages. -/
theorem claim8_empty_inputs (cfg : Config) (env : Env) (fs : FS)
    (h1 : fsRead fs cfg.odd = some []) (h2 : fsRead fs cfg.even = some [])
    (hm1 : mergedName env ≠ cfg.odd) (hm2 : mergedName env ≠ cfg.even)
    (hm3 : mergedName env ≠ odd_new_name cfg env)
    (hm4 : mergedName env ≠ even_new_name cfg env) :
    check_pages 0 0 = true ∧
    ∃ fs2 log, runPipeline cfg env fs = .ok (fs2, log) ∧
      fsRead fs2 (mergedName env) = some [] := by
  refine ⟨rfl, ?_⟩
  have hmerge : merge_files ([] : List Page) [] = some [] := rfl
  refine ⟨(move_files cfg env (fsWrite fs (mergedName env) [])).1,
    ["Odd pages are equal to even pages: executing merge.",
     "Documents merged successfully into " ++ mergedName env]
    ++ (move_files cfg env (fsWrite fs (mergedName env) [])).2
    ++ ["Finished successfully."], ?_, ?_⟩
  · simp [runPipeline, h1, h2, check_pages, hmerge]
  · rw [move_files_frame cfg env _ _ hm1 hm2 hm3 hm4, fsRead_fsWrite_self]

/-- Witness for Claim C8 at a concrete file system with two empty PDFs. -/
theorem claim8_witness :
    fsRead [("PRT_FRONT_000975.pdf", ([] : List Page)),
            ("PRT_BACK_000995.pdf", ([] : List Page))]
        defaultConfig.odd = some [] ∧
    fsRead [("PRT_FRONT_000975.pdf", ([] : List Page)),
            ("PRT_BACK_000995.pdf", ([] : List Page))]
        defaultConfig.even = some [] ∧
    check_pages 0 0 = true ∧
    ∃ fs2 log,
      runPipeline defaultConfig (Env.mk "20250103_1200" "2025-01-03" (fun _ => true))
          [("PRT_FRONT_000975.pdf", ([] : List Page)),
           ("PRT_BACK_000995.pdf", ([] : List Page))]
        = .ok (fs2, log) ∧
      fsRead fs2 (mergedName (Env.mk "20250103_1200" "2025-01-03" (fun _ => true)))
        = some [] :=
  ⟨by decide, by decide,
   (claim8_empty_inputs defaultConfig
     (Env.mk "20250103_1200" "2025-01-03" (fun _ => true))
     [("PRT_FRONT_000975.pdf", ([] : List Page)),
      ("PRT_BACK_000995.pdf", ([] : List Page))]
     (by decide) (by decide) (by decide) (by decide) (by decide) (by decide)).1,
   (claim8_empty_inputs defaultConfig
     (Env.mk "20250103_1200" "2025-01-03" (fun _ => true))
     [("PRT_FRONT_000975.pdf", ([] : List Page)),
      ("PRT_BACK_000995.pdf", ([] : List Page))]
     (by decide) (by decide) (by decide) (by decide) (by decide) (by decide)).2⟩

theorem map_rotated_add (a b : Int) :
    ∀ l : List Page, (l.map (rotatedPage a)).map (rotatedPage b)
      = l.map (rotatedPage ((a + b) % 360))
  | [] => rfl
  | p :: ps => by
    simp only [List.map_cons, rotatedPage_add, map_rotated_add a b ps]

theorem map_rotated_twice (a : Int) :
    ∀ l : List Page, (l.map (rotatedPage a)).map (rotatedPage a)
      = l.map (rotatedPage (2 * a))
  | [] => rfl
  | p :: ps => by
    simp only [List.map_cons, rotatedPage_twice, map_rotated_twice a ps]

theorem rotate_pages_odd_eq (angle : Int) (d : Docs) (h90 : angle % 90 = 0) :
    rotate_pages "odd" angle d
      = some ({ d with odd := d.odd.map (rotatedPage angle) },
          ["Rotated all odd pages by " ++ toString angle ++ " degrees."]) := by
  simp [rotate_pages, mapOpt_page_rotate angle h90]

theorem rotate_pages_even_eq (angle : Int) (d : Docs) (h90 : angle % 90 = 0) :
    rotate_pages "even" angle d
      = some ({ d with even := d.even.map (rotatedPage angle) },
          ["Rotated all even pages by " ++ toString angle ++ " degrees."]) := by
  have hne : ¬ ("even" : String) = "odd" := by decide
  simp [rotate_pages, hne, mapOpt_page_rotate angle h90]

/-- Claim C4: with a multiple-of-90 angle, rotate_pages on target odd (the
front document) or even (the back document) rotates every page of that
document in place; any other target changes neither document, prints the
invalid-target line, and returns normally so the run continues. -/
theorem claim4_rotate_contract (angle : Int) (d : Docs) (h90 : angle % 90 = 0) :
    rotate_pages "odd" angle d
      = some ({ d with odd := d.odd.map (rotatedPage angle) },
          ["Rotated all odd pages by " ++ toString angle ++ " degrees."]) ∧
    rotate_pages "even" angle d
      = some ({ d with even := d.even.map (rotatedPage angle) },
          ["Rotated all even pages by " ++ toString angle ++ " degrees."]) ∧
    ∀ t : String, t ≠ "odd" → t ≠ "even" →
      rotate_pages t angle d
        = some (d, ["Invalid target specified. Use odd or even."]) := by
  refine ⟨rotate_pages_odd_eq angle d h90, rotate_pages_even_eq angle d h90, ?_⟩
  intro t ht1 ht2
  simp [rotate_pages, ht1, ht2]

/-- Witness for Claim C4 at angle 90 on a concrete one-page document
pair. -/
theorem claim4_witness :
    (90 : Int) % 90 = 0 ∧
    (rotate_pages "odd" 90 (Docs.mk [Page.mk 1 0] [Page.mk 2 0])
      = some (Docs.mk ([Page.mk 1 0].map (rotatedPage 90)) [Page.mk 2 0],
          ["Rotated all odd pages by " ++ toString (90 : Int) ++ " degrees."]) ∧
    rotate_pages "even" 90 (Docs.mk [Page.mk 1 0] [Page.mk 2 0])
      = some (Docs.mk [Page.mk 1 0] ([Page.mk 2 0].map (rotatedPage 90)),
          ["Rotated all even pages by " ++ toString (90 : Int) ++ " degrees."]) ∧
    ∀ t : String, t ≠ "odd" → t ≠ "even" →
      rotate_pages t 90 (Docs.mk [Page.mk 1 0] [Page.mk 2 0])
        = some (Docs.mk [Page.mk 1 0] [Page.mk 2 0],
            ["Invalid target specified. Use odd or even."])) :=
  ⟨by decide,
   claim4_rotate_contract 90 (Docs.mk [Page.mk 1 0] [Page.mk 2 0]) (by decide)⟩

/-- Claim C5: on a fixed valid target, rotating by angle a and then by
angle b equals one rotation by the angle sum modulo 360; in particular
rotating twice by a equals one rotation by 2a. -/
theorem claim5_rotation_compose (t : String) (a b : Int) (d : Docs)
    (ht : t = "odd" ∨ t = "even") (ha : a % 90 = 0) (hb : b % 90 = 0) :
    (apply_rotation t a d).bind (apply_rotation t b)
      = apply_rotation t ((a + b) % 360) d ∧
    (apply_rotation t a d).bind (apply_rotation t a)
      = apply_rotation t (2 * a) d := by
  have hab : (a + b) % 360 % 90 = 0 := by omega
  have haa : (a + a) % 90 = 0 := by omega
  have h2a : (2 * a) % 90 = 0 := by omega
  rcases ht with ht | ht <;> subst ht
  · constructor
    · rw [apply_rotation_odd a ha d, Option.some_bind,
        apply_rotation_odd b hb, apply_rotation_odd _ hab d]
      simp [rotatedPage_add]
    · rw [apply_rotation_odd a ha d, Option.some_bind,
        apply_rotation_odd a ha, apply_rotation_odd _ h2a d]
      simp [rotatedPage_twice]
  · constructor
    · rw [apply_rotation_even a ha d, Option.some_bind,
        apply_rotation_even b hb, apply_rotation_even _ hab d]
      simp [rotatedPage_add]
    · rw [apply_rotation_even a ha d, Option.some_bind,
        apply_rotation_even a ha, apply_rotation_even _ h2a d]
      simp [rotatedPage_twice]

/-- Witness for Claim C5 with target odd, angles 90 and 180, on a concrete
document pair. -/
theorem claim5_witness :
    (("odd" : String) = "odd" ∨ ("odd" : String) = "even") ∧
    (90 : Int) % 90 = 0 ∧ (180 : Int) % 90 = 0 ∧
    ((apply_rotation "odd" 90 (Docs.mk [Page.mk 1 0] [Page.mk 2 0])).bind
        (apply_rotation "odd" 180)
      = apply_rotation "odd" ((90 + 180) % 360) (Docs.mk [Page.mk 1 0] [Page.mk 2 0]) ∧
    (apply_rotation "odd" 90 (Docs.mk [Page.mk 1 0] [Page.mk 2 0])).bind
        (apply_rotation "odd" 90)
      = apply_rotation "odd" (2 * 90) (Docs.mk [Page.mk 1 0] [Page.mk 2 0])) :=
  ⟨Or.inl rfl, by decide, by decide,
   claim5_rotation_compose "odd" 90 180 (Docs.mk [Page.mk 1 0] [Page.mk 2 0])
     (Or.inl rfl) (by decide) (by decide)⟩

/-- Claim C10: a valid rotation preserves the page count and order of both
documents and touches only the rotation attribute of the selected
document, leaving the other document entirely unchanged. -/
theorem claim10_rotate_frame (angle : Int) (d : Docs) (h90 : angle % 90 = 0) :
    (∃ d1 log1, rotate_pages "odd" angle d = some (d1, log1) ∧
      d1.even = d.even ∧ d1.odd.length = d.odd.length ∧
      ∀ i : Nat, (d1.odd[i]?).map Page.content = (d.odd[i]?).map Page.content) ∧
    (∃ d2 log2, rotate_pages "even" angle d = some (d2, log2) ∧
      d2.odd = d.odd ∧ d2.even.length = d.even.length ∧
      ∀ i : Nat, (d2.even[i]?).map Page.content = (d.even[i]?).map Page.content) := by
  constructor
  · refine ⟨{ d with odd := d.odd.map (rotatedPage angle) }, _,
      rotate_pages_odd_eq angle d h90, rfl, by simp, ?_⟩
    intro i
    rw [List.getElem?_map (rotatedPage angle) d.odd i]
    cases d.odd[i]? <;> rfl
  · refine ⟨{ d with even := d.even.map (rotatedPage angle) }, _,
      rotate_pages_even_eq angle d h90, rfl, by simp, ?_⟩
    intro i
    rw [List.getElem?_map (rotatedPage angle) d.even i]
    cases d.even[i]? <;> rfl

/-- Witness for Claim C10 at angle 180 on a concrete document pair. -/
theorem claim10_witness :
    (180 : Int) % 90 = 0 ∧
    ((∃ d1 log1, rotate_pages "odd" 180 (Docs.mk [Page.mk 1 0] [Page.mk 2 0])
        = some (d1, log1) ∧
      d1.even = [Page.mk 2 0] ∧ d1.odd.length = ([Page.mk 1 0] : List Page).length ∧
      ∀ i : Nat, (d1.odd[i]?).map Page.content
        = (([Page.mk 1 0] : List Page)[i]?).map Page.content) ∧
    (∃ d2 log2, rotate_pages "even" 180 (Docs.mk [Page.mk 1 0] [Page.mk 2 0])
        = some (d2, log2) ∧
      d2.odd = [Page.mk 1 0] ∧ d2.even.length = ([Page.mk 2 0] : List Page).length ∧
      ∀ i : Nat, (d2.even[i]?).map Page.content
        = (([Page.mk 2 0] : List Page)[i]?).map Page.content)) :=
  ⟨by decide,
   claim10_rotate_frame 180 (Docs.mk [Page.mk 1 0] [Page.mk 2 0]) (by decide)⟩

/-- Counterexample to Claim C6: when a file is already archived under the
same dated name, move_files replaces it silently, printing only the
success line and reporting no error. -/
theorem claim6_counterexample :
    fsRead [("PRT_FRONT_000975.pdf", [Page.mk 1 0]),
            ("PRT_BACK_000995.pdf", [Page.mk 2 0]),
            ("archive/2025-01-03_PRT_FRONT_000975.pdf", [Page.mk 9 0])]
        "archive/2025-01-03_PRT_FRONT_000975.pdf" = some [Page.mk 9 0] ∧
    fsRead (move_files defaultConfig (Env.mk "s" "2025-01-03" (fun _ => true))
        [("PRT_FRONT_000975.pdf", [Page.mk 1 0]),
         ("PRT_BACK_000995.pdf", [Page.mk 2 0]),
         ("archive/2025-01-03_PRT_FRONT_000975.pdf", [Page.mk 9 0])]).1
        "archive/2025-01-03_PRT_FRONT_000975.pdf" = some [Page.mk 1 0] ∧
    (some [Page.mk 1 0] : Option (List Page)) ≠ some [Page.mk 9 0] ∧
    (move_files defaultConfig (Env.mk "s" "2025-01-03" (fun _ => true))
        [("PRT_FRONT_000975.pdf", [Page.mk 1 0]),
         ("PRT_BACK_000995.pdf", [Page.mk 2 0]),
         ("archive/2025-01-03_PRT_FRONT_000975.pdf", [Page.mk 9 0])]).2
      = ["Moved input files to archive with updated names."] :=
  ⟨rfl, rfl, by decide, rfl⟩

/-- Claim C6 as amended: move_files relocates both consumed inputs to the
archive area under their dated names, removing the sources; a file already
sitting at a destination name is replaced silently, the success line being
printed with no error report. -/
theorem claim6_amended (cfg : Config) (env : Env) (fs : FS) (c1 c2 : List Page)
    (h1 : fsRead fs cfg.odd = some c1) (h2 : fsRead fs cfg.even = some c2)
    (hv1 : env.movable cfg.odd = true) (hv2 : env.movable cfg.even = true)
    (hoe : cfg.odd ≠ cfg.even)
    (hon : cfg.odd ≠ odd_new_name cfg env)
    (hon2 : cfg.odd ≠ even_new_name cfg env)
    (hen : cfg.even ≠ odd_new_name cfg env)
    (hen2 : cfg.even ≠ even_new_name cfg env)
    (hnn : odd_new_name cfg env ≠ even_new_name cfg env) :
    ∃ fs2, move_files cfg env fs
        = (fs2, ["Moved input files to archive with updated names."]) ∧
      fsRead fs2 (odd_new_name cfg env) = some c1 ∧
      fsRead fs2 (even_new_name cfg env) = some c2 ∧
      fsRead fs2 cfg.odd = none ∧ fsRead fs2 cfg.even = none := by
  set fs1 := fsWrite (fsRemove fs cfg.odd) (odd_new_name cfg env) c1 with hfs1
  set fs2 := fsWrite (fsRemove fs1 cfg.even) (even_new_name cfg env) c2 with hfs2
  have hm1 : shutil_move env fs cfg.odd (odd_new_name cfg env) = .ok fs1 := by
    simp [shutil_move, h1, hv1, hfs1]
  have hr2 : fsRead fs1 cfg.even = some c2 := by
    rw [hfs1, fsRead_fsWrite_ne _ _ _ _ hen,
      fsRead_fsRemove_ne _ _ _ (Ne.symm hoe)]
    exact h2
  have hm2 : shutil_move env fs1 cfg.even (even_new_name cfg env) = .ok fs2 := by
    simp [shutil_move, hr2, hv2, hfs2]
  refine ⟨fs2, ?_, ?_, ?_, ?_, ?_⟩
  · simp [move_files, hm1, move_files_second, hm2]
  · rw [hfs2, fsRead_fsWrite_ne _ _ _ _ hnn,
      fsRead_fsRemove_ne _ _ _ (Ne.symm hen), hfs1, fsRead_fsWrite_self]
  · rw [hfs2, fsRead_fsWrite_self]
  · rw [hfs2, fsRead_fsWrite_ne _ _ _ _ hon2,
      fsRead_fsRemove_ne _ _ _ hoe, hfs1, fsRead_fsWrite_ne _ _ _ _ hon,
      fsRead_fsRemove_self]
  · rw [hfs2, fsRead_fsWrite_ne _ _ _ _ hen2, fsRead_fsRemove_self]

/-- Witness for the amended Claim C6 at a concrete file system. -/
theorem claim6_amended_witness :
    fsRead [("PRT_FRONT_000975.pdf", [Page.mk 1 0]),
            ("PRT_BACK_000995.pdf", [Page.mk 2 0])]
        defaultConfig.odd = some [Page.mk 1 0] ∧
    fsRead [("PRT_FRONT_000975.pdf", [Page.mk 1 0]),
            ("PRT_BACK_000995.pdf", [Page.mk 2 0])]
        defaultConfig.even = some [Page.mk 2 0] ∧
    ∃ fs2, move_files defaultConfig (Env.mk "s" "2025-01-03" (fun _ => true))
        [("PRT_FRONT_000975.pdf", [Page.mk 1 0]),
         ("PRT_BACK_000995.pdf", [Page.mk 2 0])]
        = (fs2, ["Moved input files to archive with updated names."]) ∧
      fsRead fs2 (odd_new_name defaultConfig (Env.mk "s" "2025-01-03" (fun _ => true)))
        = some [Page.mk 1 0] ∧
      fsRead fs2 (even_new_name defaultConfig (Env.mk "s" "2025-01-03" (fun _ => true)))
        = some [Page.mk 2 0] ∧
      fsRead fs2 defaultConfig.odd = none ∧
      fsRead fs2 defaultConfig.even = none :=
  ⟨by decide, by decide,
   claim6_amended defaultConfig (Env.mk "s" "2025-01-03" (fun _ => true))
     [("PRT_FRONT_000975.pdf", [Page.mk 1 0]),
      ("PRT_BACK_000995.pdf", [Page.mk 2 0])]
     [Page.mk 1 0] [Page.mk 2 0]
     (by decide) (by decide) rfl rfl
     (by decide) (by decide) (by decide) (by decide) (by decide) (by decide)⟩

/-- Counterexample to Claim C7: with both moves denied by the operating
system, move_files prints a single error line naming only the front file;
the back file also fails to archive (nothing is relocated at all) yet no
line reports it, so failures are not reported individually per file. -/
theorem claim7_counterexample :
    (move_files defaultConfig (Env.mk "s" "2025-01-03" (fun _ => false))
        [("PRT_FRONT_000975.pdf", [Page.mk 1 0]),
         ("PRT_BACK_000995.pdf", [Page.mk 2 0])]).2
      = ["Error while moving files: Permission denied: PRT_FRONT_000975.pdf"] ∧
    (move_files defaultConfig (Env.mk "s" "2025-01-03" (fun _ => false))
        [("PRT_FRONT_000975.pdf", [Page.mk 1 0]),
         ("PRT_BACK_000995.pdf", [Page.mk 2 0])]).1
      = [("PRT_FRONT_000975.pdf", [Page.mk 1 0]),
         ("PRT_BACK_000995.pdf", [Page.mk 2 0])] ∧
    (Env.mk "s" "2025-01-03" (fun _ => false)).movable "PRT_BACK_000995.pdf"
      = false ∧
    ¬ ("Error while moving files: Permission denied: PRT_BACK_000995.pdf"
        ∈ (move_files defaultConfig (Env.mk "s" "2025-01-03" (fun _ => false))
            [("PRT_FRONT_000975.pdf", [Page.mk 1 0]),
             ("PRT_BACK_000995.pdf", [Page.mk 2 0])]).2) :=
  ⟨rfl, rfl, rfl, by decide⟩

/-- Claim C7 as amended: after a successful merge, an archiving failure is
reported as one error line for the archiving step as a whole (a failure on
the first file prevents the attempt on the second); there is no retry, and
the already-written merged output is neither deleted nor altered. -/
theorem claim7_amended (cfg : Config) (env : Env) (fs : FS)
    (d1 d2 : List Page)
    (h1 : fsRead fs cfg.odd = some d1) (h2 : fsRead fs cfg.even = some d2)
    (heq : d1.length = d2.length)
    (hm1 : mergedName env ≠ cfg.odd) (hm2 : mergedName env ≠ cfg.even)
    (hm3 : mergedName env ≠ odd_new_name cfg env)
    (hm4 : mergedName env ≠ even_new_name cfg env) :
    (∃ fs2 moveLog merged,
      merge_files d1 d2 = some merged ∧
      runPipeline cfg env fs = .ok (fs2,
        ["Odd pages are equal to even pages: executing merge.",
         "Documents merged successfully into " ++ mergedName env]
        ++ moveLog ++ ["Finished successfully."]) ∧
      moveLog.length = 1 ∧
      fsRead fs2 (mergedName env) = some merged) ∧
    (∀ fsx e, shutil_move env fsx cfg.odd (odd_new_name cfg env) = .error e →
      move_files cfg env fsx = (fsx, ["Error while moving files: " ++ e])) := by
  constructor
  · have hmo : merge_files d1 d2 = some (interleave d1 d2.reverse) :=
      merge_files_eq_interleave d1 d2 (le_of_eq heq)
    have hcp : check_pages d1.length d2.length = true := by
      simpa [check_pages] using heq
    refine ⟨(move_files cfg env
        (fsWrite fs (mergedName env) (interleave d1 d2.reverse))).1,
      (move_files cfg env
        (fsWrite fs (mergedName env) (interleave d1 d2.reverse))).2,
      interleave d1 d2.reverse, hmo, ?_, move_files_log_length cfg env _, ?_⟩
    · simp [runPipeline, h1, h2, hcp, hmo]
    · rw [move_files_frame cfg env _ _ hm1 hm2 hm3 hm4, fsRead_fsWrite_self]
  · intro fsx e hm
    simp [move_files, hm]

/-- Witness for the amended Claim C7: a run whose two archiving moves are
both denied, after a successful one-page merge. -/
theorem claim7_amended_witness :
    fsRead [("PRT_FRONT_000975.pdf", [Page.mk 1 0]),
            ("PRT_BACK_000995.pdf", [Page.mk 2 0])]
        defaultConfig.odd = some [Page.mk 1 0] ∧
    ((∃ fs2 moveLog merged,
      merge_files [Page.mk 1 0] [Page.mk 2 0] = some merged ∧
      runPipeline defaultConfig (Env.mk "20250103_1200" "2025-01-03" (fun _ => false))
          [("PRT_FRONT_000975.pdf", [Page.mk 1 0]),
           ("PRT_BACK_000995.pdf", [Page.mk 2 0])]
        = .ok (fs2,
          ["Odd pages are equal to even pages: executing merge.",
           "Documents merged successfully into "
             ++ mergedName (Env.mk "20250103_1200" "2025-01-03" (fun _ => false))]
          ++ moveLog ++ ["Finished successfully."]) ∧
      moveLog.length = 1 ∧
      fsRead fs2 (mergedName (Env.mk "20250103_1200" "2025-01-03" (fun _ => false)))
        = some merged) ∧
    (∀ fsx e, shutil_move (Env.mk "20250103_1200" "2025-01-03" (fun _ => false))
        fsx defaultConfig.odd
        (odd_new_name defaultConfig (Env.mk "20250103_1200" "2025-01-03" (fun _ => false)))
        = .error e →
      move_files defaultConfig (Env.mk "20250103_1200" "2025-01-03" (fun _ => false)) fsx
        = (fsx, ["Error while moving files: " ++ e]))) :=
  ⟨by decide,
   claim7_amended defaultConfig (Env.mk "20250103_1200" "2025-01-03" (fun _ => false))
     [("PRT_FRONT_000975.pdf", [Page.mk 1 0]),
      ("PRT_BACK_000995.pdf", [Page.mk 2 0])]
     [Page.mk 1 0] [Page.mk 2 0]
     (by decide) (by decide) rfl
     (by decide) (by decide) (by decide) (by decide)⟩

end MergeScans
